import Mathlib

/-!
Verification of the core behaviors of the tamur2 browser client:
the streaming chat response assembler with citation extraction
(`handleSendMessage` in the app component), the video-generation job
poller (`handleGenerate` in `VideoGeneratorPanel`), the live audio
session manager (`LiveConversation.tsx`), the PCM audio framing of
`onaudioprocess`, and the inline citation-marker renderer
(`SimpleMarkdown`).  Each TypeScript function is shallowly embedded as
an executable Lean definition; theorems below settle the spec claims.
-/

/-! ## Data model (types.ts) -/

/-- `ChatMessageRole` from types.ts. -/
inductive ChatMessageRole
  | user
  | model
deriving DecidableEq, Repr

/-- `Source` from types.ts: a structured citation record. -/
structure Source where
  id : String
  url : String
  title : String
  domain : String
deriving DecidableEq, Repr

/-- `ChatMessage` from types.ts (the `media` field carries no logic
relevant to the claims and is omitted; `sources` and `isLoading` are
optional exactly as in the TypeScript interface). -/
structure ChatMessage where
  id : String
  role : ChatMessageRole
  text : String
  sources : Option (List Source) := none
  isLoading : Option Bool := none
deriving DecidableEq, Repr

/-! ## Streaming fragments (the @google/genai chunk shape used by
`handleSendMessage`) -/

/-- The `web` payload of a grounding chunk: `c.web.uri`, `c.web.title`. -/
structure GroundingWeb where
  uri : String
  title : String
deriving DecidableEq, Repr

/-- One entry of `groundingMetadata.groundingChunks`; only entries whose
`web` field is present produce citations. -/
structure GroundingChunk where
  web : Option GroundingWeb
deriving DecidableEq, Repr

/-- `chunk.candidates?.[0]?.groundingMetadata` as consumed by the
assembler: an optional list of grounding chunks. -/
structure GroundingMetadata where
  groundingChunks : Option (List GroundingChunk)
deriving DecidableEq, Repr

/-- One streamed fragment: a text delta plus optional grounding
metadata. -/
structure Chunk where
  text : String
  groundingMetadata : Option GroundingMetadata
deriving DecidableEq, Repr

/-- Everything after the first "://" of a URL (helper for
`urlHostname`). -/
def dropScheme : List Char → List Char
  | ':' :: '/' :: '/' :: rest => rest
  | _ :: rest => dropScheme rest
  | [] => []

/-- Modelled from the spec: the browser `new URL(uri).hostname` used at
`handleSendMessage` to fill the `domain` field is host-library behavior
not present in the repository; we model it as the substring after the
first "://" up to the next '/', ':' , '?' or '#'. The claims under
verification never inspect this field. -/
def urlHostname (u : String) : String :=
  let host := (dropScheme u.toList).takeWhile
    (fun c => c ≠ '/' && c ≠ ':' && c ≠ '?' && c ≠ '#')
  String.mk host

/-- The citation builder inside the stream loop of `handleSendMessage`
(part_000 lines 200–207): filter the grounding chunks to those carrying
a `web` source, then map each to a `Source` whose id is `"S" ++ (i+1)`
with `i` the position in the filtered list. -/
def buildSources (gcs : List GroundingChunk) : List Source :=
  ((gcs.filterMap (fun c => c.web)).enum).map
    (fun p => { id := "S" ++ toString (p.1 + 1)
                url := p.2.uri
                title := p.2.title
                domain := urlHostname p.2.uri })

/-- The assembler state threaded through the `for await` loop of
`handleSendMessage`: the accumulated `fullText`, the running
`currentSources`, the React `sources` panel state, the transcript
`messages`, and the global `isLoading` flag. -/
structure AssemblerState where
  fullText : String
  currentSources : List Source
  panelSources : List Source
  messages : List ChatMessage
  isLoading : Bool
deriving DecidableEq, Repr

/-- One iteration of the stream loop (part_000 lines 195–213): append
the chunk text, rebuild the citation set wholesale when the fragment
carries grounding metadata with a `groundingChunks` array (otherwise
keep the previous set), and write text and citations into the single
message whose id is `mid`. -/
def processChunk (mid : String) (st : AssemblerState) (c : Chunk) :
    AssemblerState :=
  let fullText := st.fullText ++ c.text
  let currentSources :=
    match c.groundingMetadata with
    | some gm =>
      match gm.groundingChunks with
      | some gcs => buildSources gcs
      | none => st.currentSources
    | none => st.currentSources
  let panelSources :=
    match c.groundingMetadata with
    | some gm =>
      match gm.groundingChunks with
      | some gcs => buildSources gcs
      | none => st.panelSources
    | none => st.panelSources
  { fullText := fullText
    currentSources := currentSources
    panelSources := panelSources
    messages := st.messages.map (fun m =>
      if m.id = mid then
        { m with text := fullText, sources := some currentSources }
      else m)
    isLoading := st.isLoading }

/-- The fixed apology string of the catch branch (part_000 line 219). -/
def apologyText : String := "Sorry, I encountered an error. Please try again."

/-- The success epilogue (part_000 line 215 and the finally block):
clear the message's pending flag and the global loading flag. -/
def finishExchange (mid : String) (st : AssemblerState) : AssemblerState :=
  { st with
    messages := st.messages.map (fun m =>
      if m.id = mid then { m with isLoading := some false } else m)
    isLoading := false }

/-- The catch branch of `handleSendMessage` (part_000 lines 217–222
plus the finally block): replace the pending message's text with the
apology, clear its pending flag, leave its citations untouched, and
clear the global loading flag. -/
def applyStreamError (mid : String) (st : AssemblerState) : AssemblerState :=
  { st with
    messages := st.messages.map (fun m =>
      if m.id = mid then
        { m with text := apologyText, isLoading := some false }
      else m)
    isLoading := false }

/-- A streamed exchange either yields another fragment or raises. -/
inductive StreamEvent
  | chunk (c : Chunk)
  | err
deriving DecidableEq, Repr

/-- Driving the whole exchange: fragments are consumed strictly in
order; stream exhaustion runs the success epilogue; an error runs the
catch branch and consumes nothing further (one exchange = one attempt,
no retry). -/
def runExchange (mid : String) (st : AssemblerState) :
    List StreamEvent → AssemblerState
  | [] => finishExchange mid st
  | .chunk c :: rest => runExchange mid (processChunk mid st c) rest
  | .err :: _ => applyStreamError mid st

/-- The guard at the top of `handleSendMessage` (part_000 line 178): a
send is rejected outright while an exchange is in flight or when the
trimmed prompt is empty. JS string truthiness of `userPrompt.trim()`
is emptiness of the trimmed string. -/
def sendRejected (isLoading : Bool) (userPrompt : String) : Bool :=
  isLoading || userPrompt.trim = ""

/-! ## Video-generation job poller (`handleGenerate` in
`VideoGeneratorPanel`, part_000 lines 512–555) -/

/-- The operation handle returned by `generateVideo` / `checkVideoStatus`:
the `done` flag and the optional result locator
`operation.response?.generatedVideos?.[0]?.video?.uri`. -/
structure VideoOp where
  done : Bool
  uri : Option String
deriving DecidableEq, Repr

/-- Observable actions of one poll run: the fixed 10000 ms sleep and one
`checkVideoStatus` network poll. -/
inductive PollEvent
  | sleep10s
  | poll
deriving DecidableEq, Repr

/-- The `while (!operation.done)` loop (part_000 lines 530–534), as the
trace of sleeps and polls it performs: each cycle sleeps the fixed
interval then issues exactly one poll, whose response (taken in order
from `responses`) becomes the new handle. An exhausted response list
stands for a run still blocked awaiting the network. The loop body
reads no cancellation state of any kind. -/
def pollTrace : VideoOp → List VideoOp → List PollEvent
  | op, responses =>
    if op.done then []
    else
      match responses with
      | [] => []
      | r :: rest => .sleep10s :: .poll :: pollTrace r rest

/-- The terminal handle the loop exits with, when the run has enough
responses to reach a `done` handle (`none` stands for a run still
blocked awaiting the network). -/
def pollFinal : VideoOp → List VideoOp → Option VideoOp
  | op, responses =>
    if op.done then some op
    else
      match responses with
      | [] => none
      | r :: rest => pollFinal r rest

/-- The terminal outcome of `handleGenerate` after the loop exits
(part_000 lines 536–542): a truthy locator is surfaced to the caller
as `downloadLink ++ "&key=" ++ apiKey`; otherwise the
completed-without-output error is raised, caught by the catch branch. -/
inductive JobOutcome
  | succeeded (videoUrl : String)
  | failed (msg : String)
deriving DecidableEq, Repr

/-- The distinguishing error message thrown when the job completes with
no result locator (part_000 line 541). -/
def noUriError : String := "Video generation finished but no URI was returned."

/-- `handleGenerate`'s epilogue applied to the terminal handle. The
source gates on `if (downloadLink)`: JS string truthiness, so both an
absent uri field and an empty-string uri take the error branch. -/
def finishVideoJob (apiKey : String) (op : VideoOp) : JobOutcome :=
  match op.uri with
  | some link =>
    if link = "" then .failed noUriError
    else .succeeded (link ++ "&key=" ++ apiKey)
  | none => .failed noUriError

/-- Modelled from the spec: the poll loop as the spec prescribes it,
with a cancellation token checked before each sleep and again before
each poll; the repository's loop (part_000 lines 530–534) contains no
such check. `cancelAt` is the cycle index from which cancellation is
signaled. -/
def pollTraceCancelSpec : Nat → Nat → VideoOp → List VideoOp → List PollEvent
  | i, cancelAt, op, responses =>
    if op.done then []
    else if cancelAt ≤ i then []
    else
      match responses with
      | [] => []
      | r :: rest =>
        .sleep10s ::
          (if cancelAt ≤ i then []
           else .poll :: pollTraceCancelSpec (i + 1) cancelAt r rest)

/-- The repository's loop with a cancellation signal threaded alongside:
the loop body reads no cancellation state, so the trace is that of
`pollTrace` whatever the signal. This embeds the source faithfully —
lines 530–534 mention no token — while letting the cancellation claim
be stated against it. -/
def pollTraceWithCancel (_cancelAt : Nat) (op : VideoOp)
    (responses : List VideoOp) : List PollEvent :=
  pollTrace op responses

/-- The number of `checkVideoStatus` network polls a trace issues. -/
def pollCount (tr : List PollEvent) : Nat :=
  tr.count .poll

/-! ## Audio framing (the `onaudioprocess` handler of
`LiveConversation.tsx`, lines 94–104) -/

/-- JavaScript number-to-integer truncation (toward zero), on exact
rational sample values. Float32 samples and their products with the
power of two 32768 are exactly representable, so the rational model is
byte-exact for the source. -/
def jsTrunc (x : ℚ) : Int :=
  if 0 ≤ x then ⌊x⌋ else ⌈x⌉

/-- ECMAScript `ToInt16`, the conversion applied by the assignment
`int16[i] = inputData[i] * 32768` into an `Int16Array`: truncate toward
zero, reduce modulo 2^16, re-center into the signed range. No
clamping: out-of-range values wrap. -/
def toInt16 (x : ℚ) : Int :=
  let m := jsTrunc x % 65536
  if 32768 ≤ m then m - 65536 else m

/-- The per-sample store of the capture loop: `inputData[i] * 32768`
assigned into the `Int16Array`. -/
def encodeSample (s : ℚ) : Int :=
  toInt16 (s * 32768)

/-- The two little-endian bytes of one stored 16-bit word, as seen by
`new Uint8Array(int16.buffer)` (typed-array buffers are little-endian
on every supported platform). -/
def int16LEBytes (v : Int) : List Nat :=
  let u := (v % 65536).toNat
  [u % 256, u / 256]

/-- The standard base64 alphabet. -/
def base64Alphabet : List Char :=
  "ABCDEFGHIJKLMNOPQRSTUVWXYZabcdefghijklmnopqrstuvwxyz0123456789+/".toList

/-- Character of the base64 alphabet at index `n` (< 64). -/
def base64CharAt (n : Nat) : Char :=
  base64Alphabet.getD n '='

/-- Modelled from the spec: the `encode` helper imported from
`utils/mediaHelpers` (not present in the repository snapshot); the spec
describes it as a binary-safe transport encoding, base64. Standard
RFC 4648 base64 with '=' padding, 3 bytes to 4 characters. -/
def base64EncodeBytes : List Nat → List Char
  | [] => []
  | [b1] =>
    [base64CharAt (b1 / 4), base64CharAt (b1 % 4 * 16), '=', '=']
  | [b1, b2] =>
    [base64CharAt (b1 / 4), base64CharAt (b1 % 4 * 16 + b2 / 16),
     base64CharAt (b2 % 16 * 4), '=']
  | b1 :: b2 :: b3 :: rest =>
    base64CharAt (b1 / 4) :: base64CharAt (b1 % 4 * 16 + b2 / 16) ::
      base64CharAt (b2 % 16 * 4 + b3 / 64) :: base64CharAt (b3 % 64) ::
        base64EncodeBytes rest

/-- The whole `onaudioprocess` frame encoding: scale and store every
float sample as a 16-bit word, serialize the words as little-endian
bytes, and base64-encode the bytes into the transported `data` string
of the PCM blob. -/
def encodeFrame (inputData : List ℚ) : String :=
  String.mk (base64EncodeBytes
    ((inputData.map encodeSample).flatMap int16LEBytes))

/-- The per-sample mapping the spec's words prescribe (`round(sample *
32768)`), kept for comparison with the source's `encodeSample`. -/
def encodeSampleRoundSpec (s : ℚ) : Int :=
  round (s * 32768)

/-! ## Live session state (`LiveConversation.tsx`) -/

/-- Whether an audio device context that is still referenced has been
closed. -/
inductive CtxState
  | running
  | closed
deriving DecidableEq, Repr

/-- The mutable refs and React state of the `LiveConversation`
component. Refs that the code nulls out are `Bool` (present or not);
the two audio contexts are `Option CtxState` because `stopConversation`
closes them without clearing the refs. `audioSources` is the
`audioSourcesRef` set of in-flight playback handles, and
`nextStartTime` the `nextStartTimeRef` cursor (base value 0). -/
structure LiveState where
  isActive : Bool
  errMsg : Option String
  sessionRef : Bool
  mediaStream : Bool
  scriptProcessor : Bool
  inputCtx : Option CtxState
  outputCtx : Option CtxState
  currentUser : String
  currentModel : String
  history : List (String × String)
  nextStartTime : ℚ
  audioSources : List Nat
deriving DecidableEq, Repr

/-- The component's state before any resource is acquired (all refs
null, cursor at its base value 0). -/
def initialLiveState : LiveState :=
  { isActive := false
    errMsg := none
    sessionRef := false
    mediaStream := false
    scriptProcessor := false
    inputCtx := none
    outputCtx := none
    currentUser := ""
    currentModel := ""
    history := []
    nextStartTime := 0
    audioSources := [] }

/-- `stopConversation` (LiveConversation.tsx lines 29–55): clear the
active flag and error, close and null the session ref, stop and null
the media stream, disconnect and null the script processor, close each
audio context that is present and not already closed (the refs are
kept), stop and clear every playback handle, reset the cursor to 0.
Every step is guarded on presence, so the function is total: a resource
never acquired is skipped. The transcription state is untouched. -/
def stopConversation (s : LiveState) : LiveState :=
  { s with
    isActive := false
    errMsg := none
    sessionRef := false
    mediaStream := false
    scriptProcessor := false
    inputCtx := s.inputCtx.map (fun _ => CtxState.closed)
    outputCtx := s.outputCtx.map (fun _ => CtxState.closed)
    audioSources := []
    nextStartTime := 0 }

/-- One `LiveServerMessage` as consumed by the `onmessage` callback:
optional user/model transcription deltas, the turn-complete flag, an
optional audio payload (represented by the duration of its decoded
buffer; the decode helpers live in the absent `utils/mediaHelpers` and
the scheduling logic consumes only `audioBuffer.duration`), and the
interruption flag. -/
structure ServerMessage where
  inputDelta : Option String
  outputDelta : Option String
  turnComplete : Bool
  audioDur : Option ℚ
  interrupted : Bool
deriving DecidableEq, Repr

/-- The `onmessage` callback (LiveConversation.tsx lines 113–151), at
playback-clock value `clock` (`outputCtx.currentTime`), with `handle`
the fresh buffer-source node created for an audio payload. Returns the
new state and the start time at which the payload (if any) was
scheduled. Steps, in source order: append transcription deltas;
on turn completion move the current pair into the history and reset;
on an audio payload raise the cursor to `max(cursor, clock)`, schedule
the source at that time, advance the cursor by the payload duration and
track the handle; on an interruption stop every tracked handle, clear
the set and reset the cursor to 0. -/
def onmessage (st : LiveState) (clock : ℚ) (msg : ServerMessage)
    (handle : Nat) : LiveState × Option ℚ :=
  let st :=
    match msg.inputDelta with
    | some t => { st with currentUser := st.currentUser ++ t }
    | none => st
  let st :=
    match msg.outputDelta with
    | some t => { st with currentModel := st.currentModel ++ t }
    | none => st
  let st :=
    if msg.turnComplete then
      { st with
        history := st.history ++ [(st.currentUser, st.currentModel)]
        currentUser := ""
        currentModel := "" }
    else st
  let scheduled :=
    match msg.audioDur with
    | some d =>
      if st.outputCtx.isSome then
        let nst := max st.nextStartTime clock
        some ({ st with
                 nextStartTime := nst + d
                 audioSources := handle :: st.audioSources }, nst)
      else none
    | none => none
  let st := match scheduled with
    | some p => p.1
    | none => st
  let started := scheduled.map (fun p => p.2)
  if msg.interrupted then
    ({ st with audioSources := [], nextStartTime := 0 }, started)
  else (st, started)

/-- A message carrying only an audio payload of duration `d`. -/
def audioOnlyMsg (d : ℚ) : ServerMessage :=
  { inputDelta := none
    outputDelta := none
    turnComplete := false
    audioDur := some d
    interrupted := false }

/-! ## Citation marker rendering (`SimpleMarkdown`, part_000 lines
107–125) -/

/-- Recognize the regex `\[S\d+\]` at the head of the character list:
a '[', an 'S', at least one digit, then ']'. On success, returns the
digit run and the remaining input. -/
def scanMarker (l : List Char) : Option (List Char × List Char) :=
  match l with
  | c1 :: c2 :: rest =>
    if c1 = '[' ∧ c2 = 'S' then
      let ds := rest.takeWhile Char.isDigit
      if ds.isEmpty then none
      else
        match rest.drop ds.length with
        | c3 :: rest2 => if c3 = ']' then some (ds, rest2) else none
        | [] => none
    else none
  | _ => none

/-- The splitting pass `text.split(/(\[S\d+\])/g)` of `SimpleMarkdown`
(part_000 line 108): JS `split` with a capturing group keeps the
matched delimiters, and produces empty literal parts at the ends and
between adjacent markers. `acc` holds the pending literal in reverse. -/
def splitMarkersAux (acc : List Char) : Nat → List Char → List String
  | _, [] => [String.mk acc.reverse]
  | 0, rest => [String.mk (acc.reverse ++ rest)]
  | fuel + 1, c :: cs =>
    match scanMarker (c :: cs) with
    | some (ds, rest2) =>
      String.mk acc.reverse ::
        String.mk ('[' :: 'S' :: (ds ++ [']'])) ::
          splitMarkersAux [] fuel rest2
    | none => splitMarkersAux (c :: acc) fuel cs

/-- All parts produced by the split, in order. The fuel
`text.toList.length` always suffices: every step of `splitMarkersAux`
consumes at least one character per unit of fuel, so the zero-fuel
branch is unreachable from here. -/
def splitMarkerParts (text : String) : List String :=
  splitMarkersAux [] text.toList.length text.toList

/-- The unanchored per-part test `part.match(/\[S(\d+)\]/)` (part_000
line 112): scan left to right for the first occurrence of the pattern;
on a hit, the rendered source id is `"S" ++ digits` (the capture is the
digit run). -/
def findMarkerId (l : List Char) : Option String :=
  match scanMarker l with
  | some (ds, _) => some (String.mk ('S' :: ds))
  | none =>
    match l with
    | [] => none
    | _ :: rest => findMarkerId rest

/-- One rendered segment of `SimpleMarkdown`: a clickable source
reference button, or a literal text span. -/
inductive RenderSeg
  | btn (sourceId : String)
  | lit (text : String)
deriving DecidableEq, Repr

/-- Rendering of one split part (part_000 lines 111–122): a part
matching the marker pattern becomes a button carrying its source id —
with no lookup against any citation set — and every other part becomes
a literal span. -/
def renderPart (part : String) : RenderSeg :=
  match findMarkerId part.toList with
  | some sid => .btn sid
  | none => .lit part

/-- The full `SimpleMarkdown` rendering of a message text. -/
def simpleMarkdownRender (text : String) : List RenderSeg :=
  (splitMarkerParts text).map renderPart

/-- The click handler's resolution (part_000 line 300):
`sources.find(s => s.id === id) || null`. -/
def resolveSource (sources : List Source) (sid : String) : Option Source :=
  sources.find? (fun s => s.id = sid)

/-- The head of `handleSendMessage` (part_000 lines 177–193): when the
guard fires (an exchange already in flight, or a blank prompt) the
handler returns at once — `none`: no state mutation, no stream opened.
Otherwise the user message and the fresh pending model message (empty
text, `isLoading: true`) are appended, the global loading flag is set,
and the loop locals `fullText` and `currentSources` start empty. -/
def handleSendStart (st : AssemblerState) (userPrompt userId mid : String) :
    Option AssemblerState :=
  if sendRejected st.isLoading userPrompt then none
  else
    some
      { fullText := ""
        currentSources := []
        panelSources := st.panelSources
        messages := st.messages ++
          [{ id := userId, role := .user, text := userPrompt },
           { id := mid, role := .model, text := "", isLoading := some true }]
        isLoading := true }

/-! ## Concrete test vectors -/

/-- Two web source entries, as in the spec's two-source fragment. -/
def twoSourceChunks : List GroundingChunk :=
  [{ web := some { uri := "https://a.example/p", title := "A" } },
   { web := some { uri := "https://b.example", title := "B" } }]

/-- One web source entry, for the follow-up fragment. -/
def oneSourceChunks : List GroundingChunk :=
  [{ web := some { uri := "https://c.example", title := "C" } }]

/-- A fragment carrying two web sources. -/
def twoSourceFrag : Chunk :=
  { text := "hello"
    groundingMetadata := some { groundingChunks := some twoSourceChunks } }

/-- A later fragment carrying a single web source. -/
def oneSourceFrag : Chunk :=
  { text := " world"
    groundingMetadata := some { groundingChunks := some oneSourceChunks } }

/-- An assembler state at the start of an exchange: the user message
and the fresh pending model message "m1" are in the transcript. -/
def startState : AssemblerState :=
  { fullText := ""
    currentSources := []
    panelSources := []
    messages :=
      [{ id := "u1", role := .user, text := "hi" },
       { id := "m1", role := .model, text := "", isLoading := some true }]
    isLoading := true }

/-- A live session whose playback context is open (as after a
successful start). -/
def liveReadyState : LiveState :=
  { initialLiveState with outputCtx := some CtxState.running }

/-! ## Claim theorems -/

/-- Claim C1: whenever a streamed fragment carries grounding metadata
(with its `groundingChunks` array), the assembler replaces the
message's citation set wholesale — the new set is built from that
fragment's source entries alone, independent of the previous set — and
the Citation ids are assigned sequentially "S1", "S2", ... from 1 in
the order the sources appear in that fragment; a later fragment with
fewer sources therefore leaves only that fragment's citations. -/
theorem citation_replacement_wholesale (mid : String) (st : AssemblerState)
    (c : Chunk) (gm : GroundingMetadata) (gcs : List GroundingChunk)
    (hgm : c.groundingMetadata = some gm)
    (hgc : gm.groundingChunks = some gcs) :
    (processChunk mid st c).currentSources = buildSources gcs
    ∧ (∀ (i : ℕ) (m : ChatMessage),
        (processChunk mid st c).messages[i]? = some m → m.id = mid →
        m.sources = some (buildSources gcs))
    ∧ (buildSources gcs).length = (gcs.filterMap (fun gc => gc.web)).length
    ∧ ∀ i (h : i < (buildSources gcs).length),
        ((buildSources gcs)[i]).id = "S" ++ toString (i + 1) := by
  refine ⟨?_, ?_, ?_, ?_⟩
  · simp [processChunk, hgm, hgc]
  · intro i m hm hid
    simp only [processChunk, hgm, hgc, List.getElem?_map] at hm
    cases hmsg : st.messages[i]? with
    | none => simp [hmsg] at hm
    | some m0 =>
      rw [hmsg] at hm
      simp only [Option.map_some'] at hm
      by_cases h0 : m0.id = mid
      · rw [if_pos h0] at hm
        cases hm
        rfl
      · rw [if_neg h0] at hm
        cases hm
        exact absurd hid h0
  · simp [buildSources]
  · intro i h
    simp [buildSources]

/-- Witness for C1: the two-source fragment satisfies the hypotheses;
concretely, it yields citations S1, S2 in fragment order, and the
follow-up one-source fragment replaces the set with a single S1. -/
theorem citation_replacement_wholesale_witness :
    twoSourceFrag.groundingMetadata =
      some { groundingChunks := some twoSourceChunks }
    ∧ ((processChunk "m1" startState twoSourceFrag).currentSources =
          buildSources twoSourceChunks
        ∧ (∀ (i : ℕ) (m : ChatMessage),
            (processChunk "m1" startState twoSourceFrag).messages[i]? = some m →
            m.id = "m1" → m.sources = some (buildSources twoSourceChunks))
        ∧ (buildSources twoSourceChunks).length =
            (twoSourceChunks.filterMap (fun gc => gc.web)).length
        ∧ ∀ i (h : i < (buildSources twoSourceChunks).length),
            ((buildSources twoSourceChunks)[i]).id = "S" ++ toString (i + 1))
    ∧ buildSources twoSourceChunks =
        [{ id := "S1", url := "https://a.example/p", title := "A",
           domain := "a.example" },
         { id := "S2", url := "https://b.example", title := "B",
           domain := "b.example" }]
    ∧ (processChunk "m1" (processChunk "m1" startState twoSourceFrag)
          oneSourceFrag).currentSources =
        [{ id := "S1", url := "https://c.example", title := "C",
           domain := "c.example" }] :=
  ⟨rfl,
   citation_replacement_wholesale "m1" startState twoSourceFrag
     { groundingChunks := some twoSourceChunks } twoSourceChunks rfl rfl,
   by decide,
   by decide⟩

/-- Claim C2, counterexample: with base cursor 0 and the playback clock
at 0 on first-chunk arrival (so t0 = 0), chunks of durations 2 and 3
arriving in order — the second when the clock reads 10 — are scheduled
at 0 and 10, not at t0 and t0 + 2: the claimed start times do not hold
for arbitrary in-order arrival times. -/
theorem playback_schedule_cex :
    (onmessage liveReadyState 0 (audioOnlyMsg 2) 1).2 = some 0
    ∧ (onmessage (onmessage liveReadyState 0 (audioOnlyMsg 2) 1).1 10
        (audioOnlyMsg 3) 2).2 = some 10
    ∧ ((10 : ℚ) ≠ 0 + 2) := by
  refine ⟨?_, ?_, by norm_num⟩
  · simp [onmessage, audioOnlyMsg, liveReadyState, initialLiveState]
  · simp [onmessage, audioOnlyMsg, liveReadyState, initialLiveState]
    norm_num

/-- Claim C2 as amended: each audio payload is scheduled at
`max(scheduledAudioEndTime, currentPlaybackClock)` and the cursor then
advances by exactly the payload's duration; consequently two in-order
chunks of durations d1 and d2 start at t0 and t0 + d1 (gap-free,
non-overlapping) — with t0 the later of the first-arrival playback
clock and the base cursor — provided the second chunk arrives while the
first is still scheduled to play (its clock reading is at most
t0 + d1). -/
theorem playback_schedule_amended (st : LiveState) (c1 c2 d1 d2 : ℚ)
    (h1 h2 : Nat) (hctx : st.outputCtx.isSome = true)
    (harr : c2 ≤ max st.nextStartTime c1 + d1) :
    (onmessage st c1 (audioOnlyMsg d1) h1).2 = some (max st.nextStartTime c1)
    ∧ (onmessage st c1 (audioOnlyMsg d1) h1).1.nextStartTime =
        max st.nextStartTime c1 + d1
    ∧ (onmessage (onmessage st c1 (audioOnlyMsg d1) h1).1 c2
        (audioOnlyMsg d2) h2).2 = some (max st.nextStartTime c1 + d1)
    ∧ (onmessage (onmessage st c1 (audioOnlyMsg d1) h1).1 c2
        (audioOnlyMsg d2) h2).1.nextStartTime =
        max st.nextStartTime c1 + d1 + d2 := by
  have hmax : max (max st.nextStartTime c1 + d1) c2 =
      max st.nextStartTime c1 + d1 := max_eq_left harr
  refine ⟨?_, ?_, ?_, ?_⟩ <;>
    simp [onmessage, audioOnlyMsg, hctx, hmax]

/-- Witness for C2 (amended): a ready session with base cursor 0,
first chunk at clock 0 of duration 2, second at clock 1 of duration 3:
scheduled starts 0 and 2, cursor ends at 5. -/
theorem playback_schedule_amended_witness :
    liveReadyState.outputCtx.isSome = true
    ∧ (1 : ℚ) ≤ max liveReadyState.nextStartTime 0 + 2
    ∧ ((onmessage liveReadyState 0 (audioOnlyMsg 2) 1).2 =
          some (max liveReadyState.nextStartTime 0)
        ∧ (onmessage liveReadyState 0 (audioOnlyMsg 2) 1).1.nextStartTime =
            max liveReadyState.nextStartTime 0 + 2
        ∧ (onmessage (onmessage liveReadyState 0 (audioOnlyMsg 2) 1).1 1
            (audioOnlyMsg 3) 2).2 = some (max liveReadyState.nextStartTime 0 + 2)
        ∧ (onmessage (onmessage liveReadyState 0 (audioOnlyMsg 2) 1).1 1
            (audioOnlyMsg 3) 2).1.nextStartTime =
            max liveReadyState.nextStartTime 0 + 2 + 3) :=
  ⟨rfl, by norm_num [liveReadyState, initialLiveState],
   playback_schedule_amended liveReadyState 0 1 2 3 1 2 rfl
     (by norm_num [liveReadyState, initialLiveState])⟩

/-- Claim C3: a job whose handle reports done=false three times and
then done=true drives the loop through exactly 3 fixed-interval sleeps,
each followed by one poll; on the first done=true poll the job
terminates Succeeded surfacing the result locator when one is present
(as `uri ++ "&key=" ++ apiKey`), and Failed with the
completed-without-output error when none is. Locator presence is the
source's `if (downloadLink)` string truthiness: an absent uri field and
an empty-string uri both count as no locator and fail. -/
theorem video_poll_three_cycles (u1 u2 u3 : Option String)
    (final : VideoOp) (key : String) (hdone : final.done = true) :
    pollTrace ⟨false, u1⟩ [⟨false, u2⟩, ⟨false, u3⟩, final] =
      [.sleep10s, .poll, .sleep10s, .poll, .sleep10s, .poll]
    ∧ pollFinal ⟨false, u1⟩ [⟨false, u2⟩, ⟨false, u3⟩, final] = some final
    ∧ (∀ u : String, final.uri = some u → u ≠ "" →
        finishVideoJob key final = .succeeded (u ++ "&key=" ++ key))
    ∧ (final.uri = none → finishVideoJob key final = .failed noUriError)
    ∧ (final.uri = some "" → finishVideoJob key final = .failed noUriError) := by
  refine ⟨?_, ?_, ?_, ?_, ?_⟩
  · simp [pollTrace, hdone]
  · simp [pollFinal, hdone]
  · intro u hu hne
    simp [finishVideoJob, hu, hne]
  · intro hu
    simp [finishVideoJob, hu]
  · intro hu
    simp [finishVideoJob, hu]

/-- Witness for C3: a run reporting done=false, false, false then done
with locator "vid" yields the 3-cycle trace and Succeeded
"vid&key=K"; the same terminal handle without a locator — or with the
falsy empty-string locator — yields Failed. -/
theorem video_poll_three_cycles_witness :
    (VideoOp.mk true (some "vid")).done = true
    ∧ (pollTrace ⟨false, none⟩
          [⟨false, none⟩, ⟨false, none⟩, ⟨true, some "vid"⟩] =
        [.sleep10s, .poll, .sleep10s, .poll, .sleep10s, .poll]
       ∧ pollFinal ⟨false, none⟩
            [⟨false, none⟩, ⟨false, none⟩, ⟨true, some "vid"⟩] =
          some ⟨true, some "vid"⟩
       ∧ (∀ u : String, (VideoOp.mk true (some "vid")).uri = some u → u ≠ "" →
            finishVideoJob "K" ⟨true, some "vid"⟩ =
              .succeeded (u ++ "&key=" ++ "K"))
       ∧ ((VideoOp.mk true (some "vid")).uri = none →
            finishVideoJob "K" ⟨true, some "vid"⟩ = .failed noUriError)
       ∧ ((VideoOp.mk true (some "vid")).uri = some "" →
            finishVideoJob "K" ⟨true, some "vid"⟩ = .failed noUriError))
    ∧ finishVideoJob "K" ⟨true, some "vid"⟩ = .succeeded "vid&key=K"
    ∧ finishVideoJob "K" ⟨true, none⟩ = .failed noUriError
    ∧ finishVideoJob "K" ⟨true, some ""⟩ = .failed noUriError :=
  ⟨rfl,
   video_poll_three_cycles none none none ⟨true, some "vid"⟩ "K" rfl,
   by decide,
   by decide,
   by decide⟩

/-- Claim C8, counterexample: with cancellation signaled from cycle 0
on, the repository loop still issues all 3 polls of a
three-not-done-reports run — its body consults no cancellation state —
whereas the loop the claim describes (check before each sleep and each
poll) would issue none. -/
theorem poll_cancellation_cex :
    pollCount (pollTraceWithCancel 0 ⟨false, none⟩
      [⟨false, none⟩, ⟨false, none⟩, ⟨true, some "u"⟩]) = 3
    ∧ pollCount (pollTraceCancelSpec 0 0 ⟨false, none⟩
      [⟨false, none⟩, ⟨false, none⟩, ⟨true, some "u"⟩]) = 0
    ∧ (3 : Nat) ≠ 0 := by
  decide

/-- Claim C8 as amended: the poll loop honors no cancellation token —
the loop body checks only the job's done flag, so whatever cancellation
is signaled and whenever, the trace is unchanged and one poll network
operation is issued per done=false report until the job reports done. -/
theorem poll_cancellation_amended (cancelAt : Nat) (p0 : VideoOp)
    (pre : List VideoOp) (final : VideoOp)
    (hp0 : p0.done = false) (hpre : ∀ o ∈ pre, o.done = false)
    (hfinal : final.done = true) :
    pollTraceWithCancel cancelAt p0 (pre ++ [final]) =
      pollTrace p0 (pre ++ [final])
    ∧ pollCount (pollTraceWithCancel cancelAt p0 (pre ++ [final])) =
        pre.length + 1 := by
  have key : ∀ (l : List VideoOp) (q0 : VideoOp), q0.done = false →
      (∀ o ∈ l, o.done = false) →
      pollCount (pollTrace q0 (l ++ [final])) = l.length + 1 := by
    intro l
    induction l with
    | nil =>
      intro q0 h0 _
      simp [pollTrace, h0, hfinal, pollCount]
    | cons q qs ih =>
      intro q0 h0 hq
      have hq1 : q.done = false := hq q (by simp)
      have hqs : ∀ o ∈ qs, o.done = false := fun o ho => hq o (by simp [ho])
      have hstep : pollTrace q0 ((q :: qs) ++ [final]) =
          .sleep10s :: .poll :: pollTrace q (qs ++ [final]) := by
        rw [List.cons_append]
        rw [pollTrace]
        simp [h0]
      rw [hstep]
      simp only [pollCount, List.count_cons] at *
      rw [ih q hq1 hqs]
      simp
  exact ⟨rfl, key pre p0 hp0 hpre⟩

/-- Witness for C8 (amended): a run with one intermediate done=false
response and cancellation signaled from the start still issues 2 polls. -/
theorem poll_cancellation_amended_witness :
    (VideoOp.mk false none).done = false
    ∧ (∀ o ∈ [VideoOp.mk false none], o.done = false)
    ∧ (VideoOp.mk true (some "u")).done = true
    ∧ (pollTraceWithCancel 0 ⟨false, none⟩
          ([⟨false, none⟩] ++ [⟨true, some "u"⟩]) =
        pollTrace ⟨false, none⟩ ([⟨false, none⟩] ++ [⟨true, some "u"⟩])
       ∧ pollCount (pollTraceWithCancel 0 ⟨false, none⟩
            ([⟨false, none⟩] ++ [⟨true, some "u"⟩])) =
          [VideoOp.mk false none].length + 1) :=
  ⟨rfl, by decide, rfl,
   poll_cancellation_amended 0 ⟨false, none⟩ [⟨false, none⟩]
     ⟨true, some "u"⟩ rfl (by decide) rfl⟩

/-- Claim C4: if the stream errors at any point — after any prefix of
fragments, whatever events would have followed — the exchange ends by
the catch branch alone (no retry, nothing further consumed): the
pending message's text becomes the fixed apology string, its pending
flag is cleared, its citations stay exactly as last computed before the
error, and every other message is untouched; the global loading flag is
cleared. -/
theorem stream_error_apology (mid : String) (st : AssemblerState)
    (pre : List Chunk) (rest : List StreamEvent) :
    runExchange mid st (pre.map StreamEvent.chunk ++ StreamEvent.err :: rest) =
      applyStreamError mid (pre.foldl (processChunk mid) st)
    ∧ (applyStreamError mid (pre.foldl (processChunk mid) st)).isLoading = false
    ∧ ∀ (i : ℕ) (m : ChatMessage),
        (pre.foldl (processChunk mid) st).messages[i]? = some m →
        ((m.id = mid →
          (applyStreamError mid
              (pre.foldl (processChunk mid) st)).messages[i]? =
            some { m with text := apologyText, isLoading := some false })
        ∧ (m.id ≠ mid →
          (applyStreamError mid
              (pre.foldl (processChunk mid) st)).messages[i]? = some m)) := by
  refine ⟨?_, by simp [applyStreamError], ?_⟩
  · induction pre generalizing st with
    | nil => simp [runExchange]
    | cons c cs ih =>
      simp only [List.map_cons, List.cons_append, runExchange,
        List.foldl_cons]
      exact ih (processChunk mid st c)
  · intro i m hm
    constructor <;> intro hid <;>
      simp [applyStreamError, List.getElem?_map, hm, hid]

/-- Witness for C4: one two-source fragment is streamed, then an error
occurs; the pending model message ends with the apology text, cleared
pending flag, and the citations computed from the fragment. -/
theorem stream_error_apology_witness :
    runExchange "m1" startState
        ([twoSourceFrag].map StreamEvent.chunk ++ StreamEvent.err :: []) =
      applyStreamError "m1" ([twoSourceFrag].foldl (processChunk "m1") startState)
    ∧ ([twoSourceFrag].foldl (processChunk "m1") startState).messages[1]? =
        some { id := "m1", role := .model, text := "hello",
               sources := some (buildSources twoSourceChunks),
               isLoading := some true }
    ∧ (applyStreamError "m1"
          ([twoSourceFrag].foldl (processChunk "m1") startState)).messages[1]? =
        some { id := "m1", role := .model, text := apologyText,
               sources := some (buildSources twoSourceChunks),
               isLoading := some false } :=
  ⟨(stream_error_apology "m1" startState [twoSourceFrag] []).1,
   by decide,
   ((stream_error_apology "m1" startState [twoSourceFrag] []).2.2 1
      { id := "m1", role := .model, text := "hello",
        sources := some (buildSources twoSourceChunks),
        isLoading := some true } (by decide)).1 rfl⟩

/-- Claim C9: while a message is pending (the loading flag is set),
any further send request is rejected outright — no state mutation, no
second stream — and during the exchange each fragment update, the
error path and the success epilogue mutate only the single pending
model message: every message with a different id is returned unchanged
at its position. -/
theorem single_inflight_exchange (st : AssemblerState)
    (p u mid : String) (c : Chunk) (hpend : st.isLoading = true) :
    handleSendStart st p u mid = none
    ∧ ∀ (i : ℕ) (m : ChatMessage), st.messages[i]? = some m → m.id ≠ mid →
        (processChunk mid st c).messages[i]? = some m
        ∧ (applyStreamError mid st).messages[i]? = some m
        ∧ (finishExchange mid st).messages[i]? = some m := by
  refine ⟨?_, ?_⟩
  · simp [handleSendStart, sendRejected, hpend]
  · intro i m hm hid
    refine ⟨?_, ?_, ?_⟩ <;>
      simp [processChunk, applyStreamError, finishExchange,
        List.getElem?_map, hm, hid]

/-- Witness for C9: with the exchange for "m1" pending, a second send
is rejected, and the user message "u1" is untouched by a fragment
update of "m1". -/
theorem single_inflight_exchange_witness :
    startState.isLoading = true
    ∧ handleSendStart startState "more" "u2" "m1" = none
    ∧ startState.messages[0]? = some { id := "u1", role := .user, text := "hi" }
    ∧ (processChunk "m1" startState twoSourceFrag).messages[0]? =
        some { id := "u1", role := .user, text := "hi" } :=
  ⟨rfl,
   (single_inflight_exchange startState "more" "u2" "m1" twoSourceFrag rfl).1,
   by decide,
   ((single_inflight_exchange startState "more" "u2" "m1" twoSourceFrag
       rfl).2 0 { id := "u1", role := .user, text := "hi" }
     (by decide) (by decide)).1⟩

/-- Claim C5, counterexample: the per-sample map is not
`round(sample * 32768)`. At sample 3/163840 the scaled value is 0.6:
the `Int16Array` store truncates it to 0, while the claimed rounding
would give 1. -/
theorem encode_no_round_cex :
    encodeSample (3 / 163840) = 0
    ∧ encodeSampleRoundSpec (3 / 163840) = 1
    ∧ encodeSample (3 / 163840) ≠ encodeSampleRoundSpec (3 / 163840) := by
  have hx : (3 / 163840 : ℚ) * 32768 = 3 / 5 := by norm_num
  have hfl : ⌊(3 / 5 : ℚ)⌋ = 0 := by
    rw [Int.floor_eq_iff]
    constructor <;> norm_num
  have h1 : encodeSample (3 / 163840) = 0 := by
    simp only [encodeSample, toInt16, jsTrunc, hx]
    rw [if_pos (by norm_num : (0 : ℚ) ≤ 3 / 5), hfl]
    decide
  have h2 : encodeSampleRoundSpec (3 / 163840) = 1 := by
    simp only [encodeSampleRoundSpec, hx]
    rw [round_eq]
    have hadd : (3 / 5 : ℚ) + 1 / 2 = 11 / 10 := by norm_num
    rw [hadd, Int.floor_eq_iff]
    constructor <;> norm_num
  refine ⟨h1, h2, ?_⟩
  rw [h1, h2]
  decide

/-- Claim C5 as amended: each float sample is mapped to a signed 16-bit
integer by ECMAScript ToInt16 of `sample * 32768` — truncation toward
zero, then reduction modulo 2^16 — with no clamping: for in-range
samples this is plain truncation of the scaled value, while the
out-of-range sample 1 wraps to -32768 instead of saturating; each
stored word is serialized as two little-endian bytes (low byte then
high byte reassemble the word modulo 2^16), and the byte stream is
base64-transport-encoded by `encodeFrame`. -/
theorem encode_truncates_amended (s : ℚ) (h1 : -1 ≤ s) (h2 : s < 1) :
    encodeSample s = jsTrunc (s * 32768)
    ∧ encodeSample 1 = -32768
    ∧ ∀ v : ℤ,
        (((int16LEBytes v).getD 0 0 : ℤ) +
          256 * ((int16LEBytes v).getD 1 0 : ℤ)) = v % 65536 := by
  refine ⟨?_, ?_, ?_⟩
  · have hx1 : (-32768 : ℚ) ≤ s * 32768 := by nlinarith
    have hx2 : s * 32768 < 32768 := by nlinarith
    have hb : -32768 ≤ jsTrunc (s * 32768) ∧ jsTrunc (s * 32768) ≤ 32767 := by
      unfold jsTrunc
      split
      next h0 =>
        have hnn : (0 : ℤ) ≤ ⌊s * 32768⌋ := Int.le_floor.mpr (by exact_mod_cast h0)
        have hlt : ⌊s * 32768⌋ < 32768 := Int.floor_lt.mpr (by exact_mod_cast hx2)
        omega
      next h0 =>
        have hneg : s * 32768 < 0 := lt_of_not_ge h0
        have hlow : (-32768 : ℚ) ≤ (⌈s * 32768⌉ : ℚ) :=
          le_trans hx1 (Int.le_ceil _)
        have hlow' : (-32768 : ℤ) ≤ ⌈s * 32768⌉ := by exact_mod_cast hlow
        have hup : ⌈s * 32768⌉ ≤ 0 := Int.ceil_le.mpr (by exact_mod_cast hneg.le)
        omega
    obtain ⟨hbl, hbr⟩ := hb
    simp only [encodeSample, toInt16]
    split <;> omega
  · have hx : (1 : ℚ) * 32768 = 32768 := by norm_num
    have hfl : ⌊(32768 : ℚ)⌋ = 32768 := by
      rw [Int.floor_eq_iff]
      constructor <;> norm_num
    simp only [encodeSample, toInt16, jsTrunc, hx]
    rw [if_pos (by norm_num : (0 : ℚ) ≤ 32768), hfl]
    decide
  · intro v
    have h0 : 0 ≤ v % 65536 := Int.emod_nonneg v (by norm_num)
    simp only [int16LEBytes, List.getD_cons_zero, List.getD_cons_succ]
    push_cast
    rw [Int.toNat_of_nonneg h0]
    omega

/-- Witness for C5 (amended): the in-range negative sample -3/5 scales
to -19660.8 and is stored as -19660 (truncation toward zero; rounding
would give -19661, flooring -19661 as well). -/
theorem encode_truncates_amended_witness :
    (-1 : ℚ) ≤ -3 / 5
    ∧ (-3 / 5 : ℚ) < 1
    ∧ (encodeSample (-3 / 5) = jsTrunc (-3 / 5 * 32768)
       ∧ encodeSample 1 = -32768
       ∧ ∀ v : ℤ,
          (((int16LEBytes v).getD 0 0 : ℤ) +
            256 * ((int16LEBytes v).getD 1 0 : ℤ)) = v % 65536)
    ∧ encodeSample (-3 / 5) = -19660 := by
  have hx : (-3 / 5 : ℚ) * 32768 = -98304 / 5 := by norm_num
  have hcl : ⌈(-98304 / 5 : ℚ)⌉ = -19660 := by
    rw [Int.ceil_eq_iff]
    constructor <;> norm_num
  have h0 : ¬ (0 : ℚ) ≤ -98304 / 5 := by norm_num
  have heval : encodeSample (-3 / 5) = -19660 := by
    simp only [encodeSample, toInt16, jsTrunc, hx]
    rw [if_neg h0, hcl]
    decide
  exact ⟨by norm_num, by norm_num,
    encode_truncates_amended (-3 / 5) (by norm_num) (by norm_num), heval⟩

/-- Claim C6: whatever the session state and however many playback
handles are in flight, a message carrying the interruption signal
leaves `activeAudioHandles` empty and resets `scheduledAudioEndTime`
to the base clock value 0. -/
theorem interruption_clears_playback (st : LiveState) (clock : ℚ)
    (msg : ServerMessage) (handle : Nat) (hint : msg.interrupted = true) :
    (onmessage st clock msg handle).1.audioSources = []
    ∧ (onmessage st clock msg handle).1.nextStartTime = 0 := by
  simp [onmessage, hint]

/-- Witness for C6: a session with three scheduled handles and cursor 7
receives an interruption: the handle set empties and the cursor resets
to 0. -/
theorem interruption_clears_playback_witness :
    (ServerMessage.mk none none false none true).interrupted = true
    ∧ (onmessage
         { liveReadyState with audioSources := [1, 2, 3], nextStartTime := 7 }
         5 (ServerMessage.mk none none false none true) 4).1.audioSources = []
    ∧ (onmessage
         { liveReadyState with audioSources := [1, 2, 3], nextStartTime := 7 }
         5 (ServerMessage.mk none none false none true) 4).1.nextStartTime = 0 :=
  ⟨rfl,
   (interruption_clears_playback
      { liveReadyState with audioSources := [1, 2, 3], nextStartTime := 7 }
      5 (ServerMessage.mk none none false none true) 4 rfl).1,
   (interruption_clears_playback
      { liveReadyState with audioSources := [1, 2, 3], nextStartTime := 7 }
      5 (ServerMessage.mk none none false none true) 4 rfl).2⟩

/-- Claim C7: Stop is idempotent and total: it is defined on every
session state (each release step is skipped when its resource was never
acquired — in particular stopping the never-started initial state is a
no-op), a second Stop changes nothing, and the stopped state is Idle:
inactive, no error, all refs released, playback handles cleared, cursor
reset to the base value. -/
theorem stop_idempotent_total (s : LiveState) :
    stopConversation (stopConversation s) = stopConversation s
    ∧ (stopConversation s).isActive = false
    ∧ (stopConversation s).errMsg = none
    ∧ (stopConversation s).sessionRef = false
    ∧ (stopConversation s).mediaStream = false
    ∧ (stopConversation s).scriptProcessor = false
    ∧ (stopConversation s).audioSources = []
    ∧ (stopConversation s).nextStartTime = 0
    ∧ stopConversation initialLiveState = initialLiveState := by
  refine ⟨?_, rfl, rfl, rfl, rfl, rfl, rfl, rfl, rfl⟩
  cases hin : s.inputCtx <;> cases hout : s.outputCtx <;>
    simp [stopConversation, hin, hout]

/-- Claim C10, counterexample: the renderer resolves nothing against
the citation set — an unresolvable marker does not degrade to literal
text. In "See [S1] and [S9]" with only S1 in the set, "[S9]" still
renders as an interactive button (clicking it merely resolves to no
source), not as the literal text the claim requires. -/
theorem marker_passthrough_cex :
    simpleMarkdownRender "See [S1] and [S9]" =
      [.lit "See ", .btn "S1", .lit " and ", .btn "S9", .lit ""]
    ∧ RenderSeg.btn "S9" ∈ simpleMarkdownRender "See [S1] and [S9]"
    ∧ RenderSeg.lit "[S9]" ∉ simpleMarkdownRender "See [S1] and [S9]"
    ∧ resolveSource [⟨"S1", "https://a.example/p", "A", "a.example"⟩] "S9" =
        none := by
  decide

/-- Claim C10 as amended: every inline marker "[S<n>]" renders as an
interactive reference button carrying id S<n>, whether or not that id
is present in the citation set (the renderer performs no lookup);
non-marker segments render as literal passthrough text; clicking a
marker resolves it against the set, yielding the matching source for a
present id and nothing (never an error) for an absent one. -/
theorem marker_always_button_amended (url title dom : String) :
    simpleMarkdownRender "See [S1] and [S9]" =
      [.lit "See ", .btn "S1", .lit " and ", .btn "S9", .lit ""]
    ∧ resolveSource [⟨"S1", url, title, dom⟩] "S1" =
        some ⟨"S1", url, title, dom⟩
    ∧ resolveSource [⟨"S1", url, title, dom⟩] "S9" = none
    ∧ renderPart "[S9]" = .btn "S9"
    ∧ renderPart "plain" = .lit "plain" := by
  refine ⟨by decide, ?_, ?_, by decide, by decide⟩
  · simp [resolveSource, List.find?]
  · simp [resolveSource, List.find?]
